import Mathlib

/-
Verification of the Conway Game of Life engine.

Shallow embedding of the engine sources:
  src/types.ts   (CellState, Grid, SimulationStatus, GameState, Pattern)
  src/config.ts  (CONFIG)
  src/game.ts    (createEmptyGrid, createRandomGrid, calculateNextGeneration,
                  setCellState, loadPattern)
  src/main.ts    (start/stop/step/randomize/clear/speed/load-pattern handlers)
  src/input.ts   (step-button guard, speed-slider interval formula)

Cells are embedded as natural numbers (the TS type `CellState = 0 | 1`),
grids as lists of rows, JS numbers used as indices as `Int` (they can be
negative).  Rendering, DOM wiring and `console.warn` are side effects outside
the embedded state and are not modelled.
-/

/-- Cell state as in types.ts: `0` is dead, `1` is alive. -/
abbrev CellState := Nat

/-- Grid as in types.ts: a list of rows of cells. -/
abbrev Grid := List (List CellState)

/-- Configuration record, from types.ts `GameConfig`. -/
structure GameConfig where
  canvasWidth : Nat
  canvasHeight : Nat
  cellColorAlive : String
  cellColorDead : String
  gridLineColor : String
  initialGridRows : Nat
  initialGridCols : Nat
  defaultSimulationIntervalMs : Nat
  minSimulationIntervalMs : Nat
  maxSimulationIntervalMs : Nat

/-- Configuration values, from config.ts `CONFIG`. -/
def CONFIG : GameConfig :=
  { canvasWidth := 700
    canvasHeight := 500
    cellColorAlive := "#00e676"
    cellColorDead := "#263238"
    gridLineColor := "#37474f"
    initialGridRows := 50
    initialGridCols := 70
    defaultSimulationIntervalMs := 200
    minSimulationIntervalMs := 50
    maxSimulationIntervalMs := 1000 }

/-- Creates an all-dead grid, from game.ts `createEmptyGrid`. -/
def createEmptyGrid (numRows numCols : Nat) : Grid :=
  List.replicate numRows (List.replicate numCols 0)

/-- Creates a random grid, from game.ts `createRandomGrid`.  The outcome of
the per-cell draw `Math.random() < probability` at row `r`, column `c` is
modelled by the oracle `randBelow r c`. -/
def createRandomGrid (numRows numCols : Nat) (randBelow : Nat → Nat → Bool) : Grid :=
  (List.range numRows).map fun r =>
    (List.range numCols).map fun c => if randBelow r c then 1 else 0

/-- Optional-chained cell access `grid[r]?.[c]` used in game.ts. -/
def cellAt (grid : Grid) (r c : Nat) : Option CellState :=
  grid[r]?.bind fun rowArr => rowArr[c]?

/-- The number of columns read by `calculateNextGeneration` (game.ts line 54):
`currentGrid[0]?.length || 0`. -/
def numColsOf (grid : Grid) : Nat :=
  (grid.head?.map List.length).getD 0

/-- The eight neighbour offsets visited by the `i`, `j` double loop of
`calculateNextGeneration` (game.ts lines 62-63), `(0, 0)` skipped. -/
def neighborOffsets : List (Int × Int) :=
  [(-1, -1), (-1, 0), (-1, 1), (0, -1), (0, 1), (1, -1), (1, 0), (1, 1)]

/-- Toroidal wrapping `(index + n) % n` from game.ts lines 70-71.  The JS `%`
agrees with `Int.emod` on the nonnegative dividends that arise there. -/
def wrapIndex (x : Int) (n : Nat) : Nat :=
  ((x + n) % n).toNat

/-- The `liveNeighbors` count computed by the inner loop of
`calculateNextGeneration` (game.ts lines 60-78). -/
def countLiveNeighbors (currentGrid : Grid) (numRows numCols row col : Nat) : Nat :=
  neighborOffsets.foldl
    (fun acc d =>
      if cellAt currentGrid (wrapIndex ((row : Int) + d.1) numRows)
          (wrapIndex ((col : Int) + d.2) numCols) = some 1 then
        acc + 1
      else acc)
    0

/-- Next generation of the grid, from game.ts `calculateNextGeneration`
(lines 52-96). -/
def calculateNextGeneration (currentGrid : Grid) : Grid :=
  let numRows := currentGrid.length
  let numCols := numColsOf currentGrid
  if numRows = 0 ∨ numCols = 0 then []
  else
    currentGrid.mapIdx fun row rowArray =>
      rowArray.mapIdx fun col currentCellState =>
        let liveNeighbors := countLiveNeighbors currentGrid numRows numCols row col
        if currentCellState = 1 then
          if liveNeighbors < 2 ∨ liveNeighbors > 3 then 0 else 1
        else
          if liveNeighbors = 3 then 1 else 0

/-- Expected column count `grid[0]?.length ?? CONFIG.initialGridCols` used by
`setCellState` (game.ts line 114) and `loadPattern` (line 167). -/
def expectedColsOf (grid : Grid) : Nat :=
  (grid.head?.map List.length).getD CONFIG.initialGridCols

/-- Row sanitization performed inline by both `setCellState` (game.ts lines
126-138) and `loadPattern` (lines 170-180): pad a short row with dead cells,
truncate a long one.  The source additionally replaces a non-array row by an
all-dead row; rows of the typed model are always lists, so that branch has no
counterpart here. -/
def sanitizeRow (expectedNumCols : Nat) (row : List CellState) : List CellState :=
  if row.length < expectedNumCols then
    row ++ List.replicate (expectedNumCols - row.length) 0
  else if row.length > expectedNumCols then
    row.take expectedNumCols
  else
    row

/-- Sets or toggles one cell, from game.ts `setCellState` (lines 106-154).
`row` and `col` are JS numbers and may be negative, hence `Int`; `newState`
is the optional explicit state. -/
def setCellState (grid : Grid) (row col : Int) (newState : Option CellState) : Grid :=
  let numRows := grid.length
  let expectedNumCols := expectedColsOf grid
  if row < 0 ∨ (numRows : Int) ≤ row ∨ col < 0 ∨ (expectedNumCols : Int) ≤ col then
    grid
  else
    let interimGrid := grid.map (sanitizeRow expectedNumCols)
    interimGrid.mapIdx fun rIndex currentRowArray =>
      if (rIndex : Int) ≠ row then currentRowArray
      else
        currentRowArray.mapIdx fun cIndex cell =>
          if (cIndex : Int) ≠ col then cell
          else
            match newState with
            | some s => s
            | none => if cell = 1 then 0 else 1

/-- A preset pattern, from types.ts `Pattern`. -/
structure Pattern where
  name : String
  data : List (Int × Int)
  width : Int
  height : Int

/-- Membership in the `patternLiveCells` set built by `loadPattern` (game.ts
lines 182-191): some offset of the pattern maps `(startRow, startCol)` to the
in-bounds absolute target `(rIndex, cIndex)`.  The JS set keys `"r,c"` are in
bijection with the coordinate pairs, so set membership is exactly this
existential. -/
def patternHit (pattern : Pattern) (startRow startCol : Int)
    (numRows expectedNumCols : Nat) (rIndex cIndex : Nat) : Bool :=
  pattern.data.any fun d =>
    decide (0 ≤ startRow + d.1) && decide (startRow + d.1 < (numRows : Int)) &&
      decide (0 ≤ startCol + d.2) && decide (startCol + d.2 < (expectedNumCols : Int)) &&
      decide (startRow + d.1 = (rIndex : Int)) && decide (startCol + d.2 = (cIndex : Int))

/-- Stamps a pattern onto the grid, from game.ts `loadPattern`
(lines 164-204). -/
def loadPattern (grid : Grid) (pattern : Pattern) (startRow startCol : Int) : Grid :=
  let numRows := grid.length
  let expectedNumCols := expectedColsOf grid
  let sanitizedBaseGrid := grid.map (sanitizeRow expectedNumCols)
  sanitizedBaseGrid.mapIdx fun rIndex currentRowArray =>
    currentRowArray.mapIdx fun cIndex cellState =>
      if patternHit pattern startRow startCol numRows expectedNumCols rIndex cIndex then 1
      else cellState

/-- Simulation status, from types.ts `SimulationStatus`. -/
inductive SimulationStatus where
  | running
  | paused
  | stopped
  deriving DecidableEq, Repr

/-- Session state, from types.ts `GameState`. -/
structure GameState where
  grid : Grid
  numRows : Nat
  numCols : Nat
  generation : Nat
  status : SimulationStatus
  simulationInterval : Int
  timerId : Option Nat
  isDrawing : Bool
  drawMode : CellState

/-- Starts the periodic trigger, from main.ts `startSimulation` (lines 42-59).
`newTimerId` stands for the handle returned by `window.setInterval`. -/
def startSimulation (newTimerId : Nat) (s : GameState) : GameState :=
  if s.status = .running then s
  else { s with status := .running, timerId := some newTimerId }

/-- Stops the periodic trigger, from main.ts `stopSimulation` (lines 61-77). -/
def stopSimulation (s : GameState) : GameState :=
  if s.status ≠ .running then s
  else { s with status := .paused, timerId := none }

/-- Advances one generation, from main.ts `stepGeneration` (lines 79-86). -/
def stepGeneration (s : GameState) : GameState :=
  { s with grid := calculateNextGeneration s.grid, generation := s.generation + 1 }

/-- The step-button handler from input.ts lines 54-58: `onStep` runs only
while the status is `paused`; otherwise the click is ignored. -/
def stepButtonClick (s : GameState) : GameState :=
  if s.status = .paused then stepGeneration s else s

/-- Replaces the grid by a random one, from main.ts `randomizeGrid`
(lines 88-95). -/
def randomizeGrid (randBelow : Nat → Nat → Bool) (s : GameState) : GameState :=
  let s1 := stopSimulation s
  { s1 with grid := createRandomGrid s1.numRows s1.numCols randBelow
            generation := 0
            status := .paused }

/-- Replaces the grid by an empty one, from main.ts `clearGrid`
(lines 97-104). -/
def clearGrid (s : GameState) : GameState :=
  let s1 := stopSimulation s
  { s1 with grid := createEmptyGrid s1.numRows s1.numCols
            generation := 0
            status := .paused }

/-- Stores a new interval and, when running, restarts the timer with it;
from main.ts `handleSpeedChange` (lines 113-120). -/
def handleSpeedChange (interval : Int) (newTimerId : Nat) (s : GameState) : GameState :=
  let s1 := { s with simulationInterval := interval }
  if s1.status = .running then startSimulation newTimerId (stopSimulation s1)
  else s1

/-- Clears the grid, stamps a centred pattern on it and resets the counter;
from main.ts `handleLoadPattern` (lines 122-135).  `Math.floor` division is
`Int.fdiv`. -/
def handleLoadPattern (pattern : Pattern) (s : GameState) : GameState :=
  let s1 := stopSimulation s
  let cleared := createEmptyGrid s1.numRows s1.numCols
  let startRow := Int.fdiv ((s1.numRows : Int) - pattern.height) 2
  let startCol := Int.fdiv ((s1.numCols : Int) - pattern.width) 2
  { s1 with grid := loadPattern cleared pattern startRow startCol
            generation := 0
            status := .paused }

/-- The interval computed by the speed-slider handler, from input.ts line 73:
`CONFIG.maxSimulationIntervalMs - sliderValue + CONFIG.minSimulationIntervalMs`.
Slider values are integral (the HTML slider has min 50, max 1000, step 50). -/
def sliderInterval (sliderValue : Int) : Int :=
  (CONFIG.maxSimulationIntervalMs : Int) - sliderValue + (CONFIG.minSimulationIntervalMs : Int)

/-- A grid is rectangular with `nc` columns: every row has length `nc`. -/
abbrev Rectangular (grid : Grid) (nc : Nat) : Prop :=
  ∀ rowArr ∈ grid, rowArr.length = nc

/-- Neighbour count as worded in the specification: the number of the eight
surrounding offsets at which the cell looked up with row/col indices taken
modulo `numRows`/`numCols` is alive. -/
def specNeighborCount (grid : Grid) (numRows numCols row col : Nat) : Nat :=
  (neighborOffsets.filter fun d =>
    cellAt grid ((((row : Int) + d.1) % (numRows : Int)).toNat)
      ((((col : Int) + d.2) % (numCols : Int)).toNat) = some 1).length

/-- Sample session state used by concrete witnesses. -/
def sampleState : GameState :=
  { grid := [[0]]
    numRows := 1
    numCols := 1
    generation := 0
    status := .paused
    simulationInterval := 200
    timerId := none
    isDrawing := false
    drawMode := 1 }

/-- Sample running session state used by concrete witnesses. -/
def runningState : GameState :=
  { sampleState with status := .running, timerId := some 7 }

/-- Indexing into `List.mapIdx`. -/
theorem mapIdx_getElem? {α β : Type} (f : Nat → α → β) (l : List α) (i : Nat) :
    (l.mapIdx f)[i]? = l[i]?.map (f i) := by
  induction l generalizing f i with
  | nil => simp
  | cons a l ih =>
    rw [List.mapIdx_cons]
    cases i with
    | zero => simp
    | succ j =>
      simp only [List.getElem?_cons_succ]
      exact ih (fun k => f (k + 1)) j

/-- Sanitizing a row of the expected length is the identity. -/
theorem sanitizeRow_of_length_eq (nc : Nat) (row : List CellState)
    (h : row.length = nc) : sanitizeRow nc row = row := by
  simp [sanitizeRow, h]

/-- A sanitized row always has the expected length. -/
theorem sanitizeRow_length (nc : Nat) (row : List CellState) :
    (sanitizeRow nc row).length = nc := by
  unfold sanitizeRow
  split_ifs with h1 h2
  · simp
    omega
  · simp
    omega
  · omega

/-- On a rectangular grid, sanitizing every row is the identity. -/
theorem map_sanitizeRow_eq_self {grid : Grid} {nc : Nat} (h : Rectangular grid nc) :
    grid.map (sanitizeRow nc) = grid := by
  have h2 : ∀ a ∈ grid, sanitizeRow nc a = id a := fun a ha =>
    sanitizeRow_of_length_eq nc a (h a ha)
  rw [List.map_congr_left h2, List.map_id]

/-- For a nonempty rectangular grid the expected column count is the common
row length. -/
theorem expectedColsOf_eq {grid : Grid} {nc : Nat} (hrect : Rectangular grid nc)
    (hg : 0 < grid.length) : expectedColsOf grid = nc := by
  cases grid with
  | nil => simp at hg
  | cons a l =>
    have := hrect a (List.mem_cons_self a l)
    simp [expectedColsOf, this]

/-- For a nonempty rectangular grid the column count read by the transition
engine is the common row length. -/
theorem numColsOf_eq {grid : Grid} {nc : Nat} (hrect : Rectangular grid nc)
    (hg : 0 < grid.length) : numColsOf grid = nc := by
  cases grid with
  | nil => simp at hg
  | cons a l =>
    have := hrect a (List.mem_cons_self a l)
    simp [numColsOf, this]

/-- Folding a conditional counter equals adding the filter length. -/
theorem foldl_count_eq_add (p : Int × Int → Prop) [DecidablePred p]
    (l : List (Int × Int)) (n : Nat) :
    l.foldl (fun acc d => if p d then acc + 1 else acc) n
      = n + (l.filter fun d => decide (p d)).length := by
  induction l generalizing n with
  | nil => simp
  | cons a l ih =>
    by_cases h : p a <;> simp [List.filter_cons, h, ih] <;> omega

/-- The toroidal wrap is the mathematical remainder. -/
theorem wrapIndex_eq (x : Int) (n : Nat) :
    wrapIndex x n = ((x % (n : Int)).toNat) := by
  unfold wrapIndex
  rw [Int.add_emod_self]

/-- C6: the manual single-step command is accepted only while the session is
paused: while running (or stopped) the click is ignored and the whole state,
grid and generation included, is unchanged; while paused one click advances
the grid one generation and increments the generation counter by exactly 1. -/
theorem step_accepted_only_while_paused (s : GameState) :
    (s.status = .running → stepButtonClick s = s) ∧
    (s.status = .stopped → stepButtonClick s = s) ∧
    (s.status = .paused →
      (stepButtonClick s).generation = s.generation + 1 ∧
      (stepButtonClick s).grid = calculateNextGeneration s.grid) := by
  refine ⟨fun h => ?_, fun h => ?_, fun h => ?_⟩ <;>
    simp [stepButtonClick, stepGeneration, h]

/-- Witness for C6 at concrete running and paused states. -/
theorem step_accepted_only_while_paused_witness :
    stepButtonClick runningState = runningState ∧
    (stepButtonClick sampleState).generation = sampleState.generation + 1 :=
  ⟨(step_accepted_only_while_paused runningState).1 rfl,
   ((step_accepted_only_while_paused sampleState).2.2 rfl).1⟩

/-- C7 fails as stated: `handleSpeedChange` stores an interval above the
configured maximum unclamped. -/
theorem handleSpeedChange_not_clamped :
    (handleSpeedChange 2000 0 sampleState).simulationInterval = 2000 ∧
    ¬((2000 : Int) ≤ (CONFIG.maxSimulationIntervalMs : Int)) := by
  constructor
  · rfl
  · decide

/-- C7 (amended): `handleSpeedChange` stores the given interval verbatim
without clamping; every interval produced by the speed-slider handler from a
slider value within the configured bounds (the HTML slider range equals
`[minSimulationIntervalMs, maxSimulationIntervalMs]`) lies within those
bounds, so along the slider path the stored interval is a positive integer
within the configured minimum and maximum. -/
theorem sliderInterval_within_bounds (v : Int) (tid : Nat) (s : GameState)
    (h1 : (CONFIG.minSimulationIntervalMs : Int) ≤ v)
    (h2 : v ≤ (CONFIG.maxSimulationIntervalMs : Int)) :
    (CONFIG.minSimulationIntervalMs : Int) ≤ sliderInterval v ∧
    sliderInterval v ≤ (CONFIG.maxSimulationIntervalMs : Int) ∧
    0 < sliderInterval v ∧
    (handleSpeedChange (sliderInterval v) tid s).simulationInterval = sliderInterval v := by
  have hmin : (CONFIG.minSimulationIntervalMs : Int) = 50 := by decide
  have hmax : (CONFIG.maxSimulationIntervalMs : Int) = 1000 := by decide
  rw [hmin] at h1
  rw [hmax] at h2
  unfold sliderInterval
  rw [hmin, hmax]
  refine ⟨by omega, by omega, by omega, ?_⟩
  cases hs : s.status <;>
    simp [handleSpeedChange, startSimulation, stopSimulation, hs]

/-- Witness for the amended C7 at slider value 200. -/
theorem sliderInterval_within_bounds_witness :
    (CONFIG.minSimulationIntervalMs : Int) ≤ sliderInterval 200 ∧
    sliderInterval 200 ≤ (CONFIG.maxSimulationIntervalMs : Int) :=
  ⟨(sliderInterval_within_bounds 200 0 sampleState (by decide) (by decide)).1,
   (sliderInterval_within_bounds 200 0 sampleState (by decide) (by decide)).2.1⟩

/-- C8: randomize, clear and load-pattern each leave the session paused with
generation counter exactly 0, cancel the periodic timer if the session was
running, and replace the grid by a freshly built one, whatever the previous
status was. -/
theorem reset_commands_pause_and_zero (s : GameState)
    (randBelow : Nat → Nat → Bool) (p : Pattern) :
    ((randomizeGrid randBelow s).status = .paused ∧
      (randomizeGrid randBelow s).generation = 0 ∧
      (randomizeGrid randBelow s).grid = createRandomGrid s.numRows s.numCols randBelow ∧
      (s.status = .running → (randomizeGrid randBelow s).timerId = none)) ∧
    ((clearGrid s).status = .paused ∧
      (clearGrid s).generation = 0 ∧
      (clearGrid s).grid = createEmptyGrid s.numRows s.numCols ∧
      (s.status = .running → (clearGrid s).timerId = none)) ∧
    ((handleLoadPattern p s).status = .paused ∧
      (handleLoadPattern p s).generation = 0 ∧
      (handleLoadPattern p s).grid =
        loadPattern (createEmptyGrid s.numRows s.numCols) p
          (Int.fdiv ((s.numRows : Int) - p.height) 2)
          (Int.fdiv ((s.numCols : Int) - p.width) 2) ∧
      (s.status = .running → (handleLoadPattern p s).timerId = none)) := by
  unfold randomizeGrid clearGrid handleLoadPattern stopSimulation
  cases hs : s.status <;> simp [hs]

/-- Witness for C8 at a concrete running state. -/
theorem reset_commands_pause_and_zero_witness :
    (randomizeGrid (fun _ _ => true) runningState).timerId = none ∧
    (clearGrid runningState).status = .paused ∧
    (handleLoadPattern ⟨"dot", [(0, 0)], 1, 1⟩ runningState).generation = 0 :=
  ⟨(reset_commands_pause_and_zero runningState (fun _ _ => true)
      ⟨"dot", [(0, 0)], 1, 1⟩).1.2.2.2 rfl,
   (reset_commands_pause_and_zero runningState (fun _ _ => true)
      ⟨"dot", [(0, 0)], 1, 1⟩).2.1.1,
   (reset_commands_pause_and_zero runningState (fun _ _ => true)
      ⟨"dot", [(0, 0)], 1, 1⟩).2.2.2.1⟩

/-- C4: an out-of-bounds target makes `setCellState` a no-op that returns the
input grid itself; in particular at row -1 and at row `numRows`.  The source
reports this on `console.warn` (a warning, not a failure), which has no
observable counterpart in the embedded state. -/
theorem setCellState_out_of_bounds (grid : Grid) (row col : Int) (ns : Option CellState) :
    ((row < 0 ∨ (grid.length : Int) ≤ row ∨ col < 0 ∨ (expectedColsOf grid : Int) ≤ col) →
      setCellState grid row col ns = grid) ∧
    setCellState grid (-1) 0 ns = grid ∧
    setCellState grid (grid.length : Int) 0 ns = grid := by
  have main : ∀ r c : Int,
      (r < 0 ∨ (grid.length : Int) ≤ r ∨ c < 0 ∨ (expectedColsOf grid : Int) ≤ c) →
      setCellState grid r c ns = grid := by
    intro r c h
    simp only [setCellState]
    rw [if_pos h]
  exact ⟨main row col, main (-1) 0 (Or.inl (by omega)),
    main (grid.length : Int) 0 (Or.inr (Or.inl (by omega)))⟩

/-- Witness for C4 at a concrete grid. -/
theorem setCellState_out_of_bounds_witness :
    setCellState [[0]] (-1) 0 none = [[0]] :=
  (setCellState_out_of_bounds [[0]] (-1) 0 none).1 (Or.inl (by decide))

/-- C9: on a grid with no rows, or whose first row has no cells, the next
generation is the empty grid. -/
theorem calculateNextGeneration_empty (g : Grid)
    (h : g.length = 0 ∨ numColsOf g = 0) :
    calculateNextGeneration g = [] := by
  simp only [calculateNextGeneration]
  rw [if_pos h]

/-- Witness for C9 on a grid whose first row is empty. -/
theorem calculateNextGeneration_empty_witness :
    calculateNextGeneration [[], [1]] = [] :=
  calculateNextGeneration_empty [[], [1]] (Or.inr rfl)

/-- The translated neighbour count equals the specification-worded one. -/
theorem countLiveNeighbors_eq_spec (g : Grid) (nr nc row col : Nat) :
    countLiveNeighbors g nr nc row col = specNeighborCount g nr nc row col := by
  unfold countLiveNeighbors specNeighborCount
  simp only [wrapIndex_eq]
  rw [foldl_count_eq_add (fun d => cellAt g ((((row : Int) + d.1) % (nr : Int)).toNat)
      ((((col : Int) + d.2) % (nc : Int)).toNat) = some 1) neighborOffsets 0]
  simp

/-- Remainder of -1 modulo a positive `n`, as a natural number, is `n - 1`. -/
theorem neg_one_emod_toNat (n : Nat) (hn : 0 < n) :
    ((-1 : Int) % (n : Int)).toNat = n - 1 := by
  have h1 : ((-1 : Int) + n) % n = (-1 : Int) % n := Int.add_emod_self
  have h2 : ((-1 : Int) + n) % n = (-1 : Int) + n :=
    Int.emod_eq_of_lt (by omega) (by omega)
  omega

/-- Cell-level computation of `calculateNextGeneration` on a rectangular
nonempty grid. -/
theorem cellAt_calculateNextGeneration {g : Grid} {nc : Nat}
    (hrect : Rectangular g nc) (hnr : 0 < g.length) (hnc : 0 < nc)
    {r c : Nat} (hr : r < g.length) (v : CellState)
    (hv : cellAt g r c = some v) :
    cellAt (calculateNextGeneration g) r c =
      some (if v = 1 then
              if countLiveNeighbors g g.length nc r c < 2 ∨
                  countLiveNeighbors g g.length nc r c > 3 then 0 else 1
            else if countLiveNeighbors g g.length nc r c = 3 then 1 else 0) := by
  have hcols := numColsOf_eq hrect hnr
  obtain ⟨rowr, hrow⟩ : ∃ rowr, g[r]? = some rowr :=
    ⟨g[r], List.getElem?_eq_getElem hr⟩
  have hcv : rowr[c]? = some v := by
    unfold cellAt at hv
    rw [hrow] at hv
    simpa using hv
  simp only [calculateNextGeneration]
  rw [if_neg (by omega)]
  unfold cellAt
  rw [mapIdx_getElem?, hrow]
  simp only [Option.map_some', Option.some_bind]
  rw [mapIdx_getElem?, hcv]
  simp only [Option.map_some']
  rw [hcols]

/-- Rows of a `mapIdx` image all have length `E` when the row transformer
guarantees it. -/
theorem rect_mapIdx_of_rows (S : Grid) (F : Nat → List CellState → List CellState)
    (E : Nat) (h : ∀ i rowi, S[i]? = some rowi → (F i rowi).length = E) :
    Rectangular (S.mapIdx F) E := by
  intro rowArr' hmem
  obtain ⟨i, hi⟩ := List.mem_iff_getElem?.mp hmem
  rw [mapIdx_getElem?] at hi
  cases hgi : S[i]? with
  | none =>
    rw [hgi] at hi
    simp at hi
  | some rowi =>
    rw [hgi] at hi
    simp only [Option.map_some', Option.some.injEq] at hi
    rw [← hi]
    exact h i rowi hgi

/-- Shape of `setCellState` for an in-bounds target on a rectangular grid:
the sanitization pass is the identity and only the target row is mapped. -/
theorem setCellState_in_bounds_eq {g : Grid} {nc : Nat} (hrect : Rectangular g nc)
    (row col : Nat) (hr : row < g.length) (hc : col < nc) (ns : Option CellState) :
    setCellState g (row : Int) (col : Int) ns =
      g.mapIdx fun rIndex currentRowArray =>
        if (rIndex : Int) ≠ (row : Int) then currentRowArray
        else
          currentRowArray.mapIdx fun cIndex cell =>
            if (cIndex : Int) ≠ (col : Int) then cell
            else
              match ns with
              | some s => s
              | none => if cell = 1 then 0 else 1 := by
  have hcols := expectedColsOf_eq hrect (by omega)
  simp only [setCellState, hcols]
  rw [if_neg (by push_neg; omega), map_sanitizeRow_eq_self hrect]

/-- Cell-level computation of `loadPattern`: the cell at an in-bounds
position is 1 where the pattern hits and the sanitized base value
elsewhere. -/
theorem cellAt_loadPattern (g : Grid) (p : Pattern) (sr sc : Int)
    (r c : Nat) (hr : r < g.length) (hc : c < expectedColsOf g) :
    ∃ w, (sanitizeRow (expectedColsOf g) (g.get ⟨r, hr⟩))[c]? = some w ∧
      cellAt (loadPattern g p sr sc) r c =
        some (if patternHit p sr sc g.length (expectedColsOf g) r c then 1 else w) := by
  have hsr : g[r]? = some (g.get ⟨r, hr⟩) := List.getElem?_eq_getElem hr
  have hslen : (sanitizeRow (expectedColsOf g) (g.get ⟨r, hr⟩)).length = expectedColsOf g :=
    sanitizeRow_length _ _
  obtain ⟨w, hw⟩ : ∃ w, (sanitizeRow (expectedColsOf g) (g.get ⟨r, hr⟩))[c]? = some w :=
    ⟨_, List.getElem?_eq_getElem (by omega)⟩
  refine ⟨w, hw, ?_⟩
  simp only [loadPattern]
  unfold cellAt
  rw [mapIdx_getElem?, List.getElem?_map, hsr]
  simp only [Option.map_some', Option.some_bind]
  rw [mapIdx_getElem?, hw]
  simp

/-- Claim C1: for every rectangular non-empty grid and every cell (r, c),
`calculateNextGeneration` returns a grid in which the cell at (r, c) is
alive iff either the current cell is alive with exactly 2 or 3 live
neighbours, or the current cell is dead with exactly 3 live neighbours,
where the 8 neighbours are counted with row/col indices taken modulo
`numRows`/`numCols` (toroidal wraparound); in particular a live cell at
(numRows-1, numCols-1) is counted as a diagonal neighbour of (0, 0). -/
theorem calculateNextGeneration_life_rule (g : Grid) (nc : Nat)
    (hrect : Rectangular g nc) (hnr : 0 < g.length) (hnc : 0 < nc)
    (r c : Nat) (hr : r < g.length) (hc : c < nc) :
    (cellAt (calculateNextGeneration g) r c = some 1 ↔
      (cellAt g r c = some 1 ∧
        (specNeighborCount g g.length nc r c = 2 ∨
          specNeighborCount g g.length nc r c = 3)) ∨
      (cellAt g r c ≠ some 1 ∧ specNeighborCount g g.length nc r c = 3)) ∧
    (cellAt g (g.length - 1) (nc - 1) = some 1 →
      0 < specNeighborCount g g.length nc 0 0) := by
  constructor
  · obtain ⟨rowr, hrow⟩ : ∃ rowr, g[r]? = some rowr :=
      ⟨g[r], List.getElem?_eq_getElem hr⟩
    have hlen : rowr.length = nc := hrect rowr (List.getElem?_mem hrow)
    obtain ⟨v, hv⟩ : ∃ v, rowr[c]? = some v :=
      ⟨rowr.get ⟨c, by omega⟩, List.getElem?_eq_getElem (by omega)⟩
    have hcell : cellAt g r c = some v := by
      unfold cellAt
      rw [hrow]
      simpa using hv
    rw [cellAt_calculateNextGeneration hrect hnr hnc hr v hcell, hcell,
      countLiveNeighbors_eq_spec g g.length nc r c]
    by_cases hv1 : v = 1 <;> split_ifs <;> simp_all <;> omega
  · intro hlive
    unfold specNeighborCount
    have hmem : ((-1 : Int), (-1 : Int)) ∈ neighborOffsets := by
      simp [neighborOffsets]
    have hr1 : (((0 : Nat) : Int) + (-1 : Int)) = (-1 : Int) := by norm_num
    have e1 : ((((0 : Nat) : Int) + (-1 : Int)) % (g.length : Int)).toNat = g.length - 1 := by
      rw [hr1, neg_one_emod_toNat g.length hnr]
    have e2 : ((((0 : Nat) : Int) + (-1 : Int)) % (nc : Int)).toNat = nc - 1 := by
      rw [hr1, neg_one_emod_toNat nc hnc]
    have hcc : cellAt g (((((0 : Nat) : Int) + (-1 : Int)) % (g.length : Int)).toNat)
        (((((0 : Nat) : Int) + (-1 : Int)) % (nc : Int)).toNat) = some 1 := by
      rw [e1, e2]
      exact hlive
    exact List.length_pos_of_mem (List.mem_filter.mpr ⟨hmem, by simpa using hcc⟩)

/-- Witness for C1: on the 2-by-2 grid with live corners (0,0) and (1,1),
the wrapped neighbour count of (0,0) sees the live far corner. -/
theorem calculateNextGeneration_life_rule_witness :
    0 < specNeighborCount [[1, 0], [0, 1]] 2 2 0 0 :=
  (calculateNextGeneration_life_rule [[1, 0], [0, 1]] 2 (by decide) (by decide)
    (by decide) 0 0 (by decide) (by decide)).2 (by decide)

/-- C2 fails as stated: on the ragged grid [[0], [0, 1]] the base grid is
truncated to the expected column count (the first row's length, 1) before
stamping, so the pre-existing live cell at (1, 1), targeted by no pattern
offset at all, does not retain its prior value: it is cleared from the
output. -/
theorem loadPattern_clears_on_ragged :
    cellAt [[0], [0, 1]] 1 1 = some 1 ∧
    cellAt (loadPattern [[0], [0, 1]] ⟨"empty", [], 0, 0⟩ 0 0) 1 1 = none := by
  constructor
  · decide
  · decide

/-- Claim C2 (amended): for every grid, `loadPattern` sets every in-bounds
pattern target to alive and silently drops every out-of-bounds target; the
base grid is first normalized to the expected column count, and every
in-bounds cell not targeted by an in-bounds pattern offset takes its value
in that normalized base grid; in particular on rectangular grids every
non-targeted cell retains its prior value and loading never clears a
pre-existing live cell (loading is additive). -/
theorem loadPattern_stamps_and_normalizes (g : Grid) (p : Pattern) (sr sc : Int) :
    (∀ d ∈ p.data, 0 ≤ sr + d.1 → sr + d.1 < (g.length : Int) →
      0 ≤ sc + d.2 → sc + d.2 < (expectedColsOf g : Int) →
      cellAt (loadPattern g p sr sc) (sr + d.1).toNat (sc + d.2).toNat = some 1) ∧
    (∀ r c : Nat, (hr : r < g.length) → c < expectedColsOf g →
      (∀ d ∈ p.data, ¬(sr + d.1 = (r : Int) ∧ sc + d.2 = (c : Int))) →
      cellAt (loadPattern g p sr sc) r c =
        (sanitizeRow (expectedColsOf g) (g.get ⟨r, hr⟩))[c]?) ∧
    (Rectangular g (expectedColsOf g) →
      ∀ r c : Nat, r < g.length → c < expectedColsOf g →
      (∀ d ∈ p.data, ¬(sr + d.1 = (r : Int) ∧ sc + d.2 = (c : Int))) →
      cellAt (loadPattern g p sr sc) r c = cellAt g r c) ∧
    (Rectangular g (expectedColsOf g) →
      ∀ r c : Nat, r < g.length → c < expectedColsOf g →
      cellAt g r c = some 1 →
      cellAt (loadPattern g p sr sc) r c = some 1) := by
  have hrectcell : ∀ (hrect : Rectangular g (expectedColsOf g)), ∀ r c : Nat,
      (hr : r < g.length) → c < expectedColsOf g →
      ∀ v, cellAt g r c = some v →
      (sanitizeRow (expectedColsOf g) (g.get ⟨r, hr⟩))[c]? = some v := by
    intro hrect r c hr hc v hv
    have hlen : (g.get ⟨r, hr⟩).length = expectedColsOf g :=
      hrect _ (List.getElem_mem hr)
    rw [sanitizeRow_of_length_eq _ _ hlen]
    unfold cellAt at hv
    rw [List.getElem?_eq_getElem hr] at hv
    simpa using hv
  have hmiss : ∀ r c : Nat,
      (∀ d ∈ p.data, ¬(sr + d.1 = (r : Int) ∧ sc + d.2 = (c : Int))) →
      patternHit p sr sc g.length (expectedColsOf g) r c = false := by
    intro r c hno
    unfold patternHit
    rw [List.any_eq_false]
    intro d hd
    have hnd := hno d hd
    simp only [Bool.and_eq_true, decide_eq_true_eq]
    intro hcon
    exact hnd ⟨hcon.1.2, hcon.2⟩
  refine ⟨?_, ?_, ?_, ?_⟩
  · intro d hd h1 h2 h3 h4
    have hrnat : (sr + d.1).toNat < g.length := by omega
    have hcnat : (sc + d.2).toNat < expectedColsOf g := by omega
    obtain ⟨w, hw, hcell⟩ := cellAt_loadPattern g p sr sc _ _ hrnat hcnat
    rw [hcell]
    have hhit : patternHit p sr sc g.length (expectedColsOf g)
        (sr + d.1).toNat (sc + d.2).toNat = true := by
      unfold patternHit
      rw [List.any_eq_true]
      refine ⟨d, hd, ?_⟩
      simp only [Bool.and_eq_true, decide_eq_true_eq]
      refine ⟨⟨⟨⟨⟨h1, h2⟩, h3⟩, h4⟩, ?_⟩, ?_⟩
      · rw [Int.toNat_of_nonneg h1]
      · rw [Int.toNat_of_nonneg h3]
    rw [hhit]
    simp
  · intro r c hr hc hno
    obtain ⟨w, hw, hcell⟩ := cellAt_loadPattern g p sr sc r c hr hc
    rw [hcell, hmiss r c hno, hw]
    simp
  · intro hrect r c hr hc hno
    obtain ⟨w, hw, hcell⟩ := cellAt_loadPattern g p sr sc r c hr hc
    rw [hcell, hmiss r c hno]
    obtain ⟨v, hv⟩ : ∃ v, cellAt g r c = some v := by
      have hlen : (g.get ⟨r, hr⟩).length = expectedColsOf g :=
        hrect _ (List.getElem_mem hr)
      refine ⟨(g.get ⟨r, hr⟩).get ⟨c, by omega⟩, ?_⟩
      unfold cellAt
      rw [List.getElem?_eq_getElem hr]
      simpa using List.getElem?_eq_getElem (by omega : c < (g.get ⟨r, hr⟩).length)
    have hws := hrectcell hrect r c hr hc v hv
    rw [hw] at hws
    rw [hv]
    simp at hws
    simp [hws]
  · intro hrect r c hr hc hv
    obtain ⟨w, hw, hcell⟩ := cellAt_loadPattern g p sr sc r c hr hc
    have hws := hrectcell hrect r c hr hc 1 hv
    rw [hw] at hws
    simp at hws
    rw [hcell, hws]
    split <;> rfl

/-- Witness for the amended C2: a one-offset pattern stamped at the origin
of a 2-by-2 grid makes its target cell alive. -/
theorem loadPattern_stamps_and_normalizes_witness :
    cellAt (loadPattern [[0, 0], [0, 0]] ⟨"dot", [(0, 1)], 1, 1⟩ 0 0)
      ((0 : Int) + 0).toNat ((0 : Int) + 1).toNat = some 1 :=
  (loadPattern_stamps_and_normalizes [[0, 0], [0, 0]] ⟨"dot", [(0, 1)], 1, 1⟩ 0 0).1
    (0, 1) (by decide) (by decide) (by decide) (by decide) (by decide)

/-- Claim C3: on a rectangular grid with an in-bounds target, `setCellState`
with an explicit state stores that state at the target, with no explicit
state it toggles the target (alive becomes dead and dead becomes alive), and
every other cell of the returned grid equals the corresponding input cell. -/
theorem setCellState_sets_and_preserves (g : Grid) (nc : Nat)
    (hrect : Rectangular g nc) (row col : Nat)
    (hr : row < g.length) (hc : col < nc) :
    (∀ s : CellState,
      cellAt (setCellState g (row : Int) (col : Int) (some s)) row col = some s) ∧
    (∀ v : CellState, cellAt g row col = some v →
      cellAt (setCellState g (row : Int) (col : Int) none) row col =
        some (if v = 1 then 0 else 1)) ∧
    (∀ ns : Option CellState, ∀ r c : Nat, r < g.length → c < nc →
      r ≠ row ∨ c ≠ col →
      cellAt (setCellState g (row : Int) (col : Int) ns) r c = cellAt g r c) := by
  obtain ⟨rowr, hrow⟩ : ∃ rowr, g[row]? = some rowr :=
    ⟨g[row], List.getElem?_eq_getElem hr⟩
  have hlen : rowr.length = nc := hrect rowr (List.getElem?_mem hrow)
  have htarget : ∀ ns : Option CellState, ∀ v : CellState, cellAt g row col = some v →
      cellAt (setCellState g (row : Int) (col : Int) ns) row col =
        some (match ns with
              | some s => s
              | none => if v = 1 then 0 else 1) := by
    intro ns v hv
    have hcv : rowr[col]? = some v := by
      unfold cellAt at hv
      rw [hrow] at hv
      simpa using hv
    rw [setCellState_in_bounds_eq hrect row col hr hc ns]
    unfold cellAt
    rw [mapIdx_getElem?, hrow]
    simp only [Option.map_some', Option.some_bind]
    rw [if_neg (by simp), mapIdx_getElem?, hcv]
    simp only [Option.map_some', Option.some.injEq]
    rw [if_neg (by simp)]
  have hele : ∃ v, rowr[col]? = some v :=
    ⟨rowr.get ⟨col, by omega⟩, List.getElem?_eq_getElem (by omega)⟩
  refine ⟨?_, ?_, ?_⟩
  · intro s
    obtain ⟨v, hv⟩ := hele
    have hcell : cellAt g row col = some v := by
      unfold cellAt
      rw [hrow]
      simpa using hv
    simpa using htarget (some s) v hcell
  · intro v hv
    simpa using htarget none v hv
  · intro ns r c hrr hcc hne
    rw [setCellState_in_bounds_eq hrect row col hr hc ns]
    unfold cellAt
    rw [mapIdx_getElem?]
    obtain ⟨rowr2, hrow2⟩ : ∃ rowr2, g[r]? = some rowr2 :=
      ⟨g[r], List.getElem?_eq_getElem hrr⟩
    rw [hrow2]
    simp only [Option.map_some', Option.some_bind]
    by_cases hreq : r = row
    · have hcne : c ≠ col := by
        rcases hne with h | h
        · exact absurd hreq h
        · exact h
      subst hreq
      rw [if_neg (by simp), mapIdx_getElem?]
      cases hv2 : rowr2[c]? with
      | none => simp
      | some w =>
        simp only [Option.map_some', Option.some.injEq]
        rw [if_pos (by simpa using hcne)]
    · rw [if_pos (by simpa using hreq)]

/-- Witness for C3: explicitly setting cell (0, 1) of a 2-by-2 grid to 1. -/
theorem setCellState_sets_and_preserves_witness :
    cellAt (setCellState [[0, 0], [0, 0]] ((0 : Nat) : Int) ((1 : Nat) : Int)
      (some 1)) 0 1 = some 1 :=
  (setCellState_sets_and_preserves [[0, 0], [0, 0]] 2 (by decide) 0 1
    (by decide) (by decide)).1 1

/-- Claim C10: the toggle is an involution: on a rectangular grid of cells 0
and 1, toggling the same in-bounds cell twice returns the original grid. -/
theorem toggle_twice_id (g : Grid) (nc : Nat) (hrect : Rectangular g nc)
    (hbin : ∀ rowArr ∈ g, ∀ v ∈ rowArr, v = 0 ∨ v = 1)
    (row col : Nat) (hr : row < g.length) (hc : col < nc) :
    setCellState (setCellState g (row : Int) (col : Int) none)
      (row : Int) (col : Int) none = g := by
  rw [setCellState_in_bounds_eq hrect row col hr hc none]
  have hrect1 : Rectangular (g.mapIdx fun rIndex currentRowArray =>
      if (rIndex : Int) ≠ (row : Int) then currentRowArray
      else
        currentRowArray.mapIdx fun cIndex cell =>
          if (cIndex : Int) ≠ (col : Int) then cell
          else
            match (none : Option CellState) with
            | some s => s
            | none => if cell = 1 then 0 else 1) nc := by
    refine rect_mapIdx_of_rows _ _ _ ?_
    intro i rowi hi
    have hleni : rowi.length = nc := hrect rowi (List.getElem?_mem hi)
    by_cases hir : (i : Int) ≠ (row : Int)
    · rw [if_pos hir]
      exact hleni
    · rw [if_neg hir, List.length_mapIdx]
      exact hleni
  have hlen1 : (g.mapIdx fun rIndex currentRowArray =>
      if (rIndex : Int) ≠ (row : Int) then currentRowArray
      else
        currentRowArray.mapIdx fun cIndex cell =>
          if (cIndex : Int) ≠ (col : Int) then cell
          else
            match (none : Option CellState) with
            | some s => s
            | none => if cell = 1 then 0 else 1).length = g.length :=
    List.length_mapIdx
  rw [setCellState_in_bounds_eq hrect1 row col (by omega) hc none]
  apply List.ext_getElem?
  intro i
  rw [mapIdx_getElem?, mapIdx_getElem?]
  cases hgi : g[i]? with
  | none => simp
  | some rowi =>
    simp only [Option.map_some', Option.some.injEq]
    have hbini : ∀ v ∈ rowi, v = 0 ∨ v = 1 := hbin rowi (List.getElem?_mem hgi)
    by_cases hir : (i : Int) ≠ (row : Int)
    · rw [if_pos hir, if_pos hir]
    · rw [if_neg hir, if_neg hir]
      apply List.ext_getElem?
      intro j
      rw [mapIdx_getElem?, mapIdx_getElem?]
      cases hvj : rowi[j]? with
      | none => simp
      | some v =>
        simp only [Option.map_some', Option.some.injEq]
        by_cases hjc : (j : Int) ≠ (col : Int)
        · rw [if_pos hjc, if_pos hjc]
        · rw [if_neg hjc, if_neg hjc]
          rcases hbini v (List.getElem?_mem hvj) with hv0 | hv1
          · subst hv0
            simp
          · subst hv1
            simp

/-- Witness for C10: toggling cell (0, 1) of a 2-by-2 grid twice restores
the grid. -/
theorem toggle_twice_id_witness :
    setCellState (setCellState [[1, 0], [0, 1]] ((0 : Nat) : Int)
      ((1 : Nat) : Int) none) ((0 : Nat) : Int) ((1 : Nat) : Int) none =
      [[1, 0], [0, 1]] :=
  toggle_twice_id [[1, 0], [0, 1]] 2 (by decide) (by decide) 0 1
    (by decide) (by decide)

/-- C5 fails as stated: an out-of-bounds `setCellState` returns a ragged
input grid unchanged, so the returned grid is not rectangular. -/
theorem setCellState_ragged_out_of_bounds :
    setCellState [[0], [0, 0]] (-1) 0 none = [[0], [0, 0]] ∧
    ¬Rectangular [[0], [0, 0]] (expectedColsOf [[0], [0, 0]]) := by
  constructor
  · decide
  · decide

/-- Claim C5 (amended): for every input grid, `loadPattern` returns a
rectangular grid of the expected column count with the input's row count,
and so does `setCellState` whenever the target is in bounds (normalization
precedes the mutation); on an out-of-bounds target `setCellState` returns
the input grid unchanged. -/
theorem mutation_outputs_rectangular (g : Grid) (p : Pattern) (sr sc : Int)
    (row col : Int) (ns : Option CellState) :
    Rectangular (loadPattern g p sr sc) (expectedColsOf g) ∧
    (loadPattern g p sr sc).length = g.length ∧
    (¬(row < 0 ∨ (g.length : Int) ≤ row ∨ col < 0 ∨ (expectedColsOf g : Int) ≤ col) →
      Rectangular (setCellState g row col ns) (expectedColsOf g) ∧
      (setCellState g row col ns).length = g.length) := by
  have hsan : ∀ (i : Nat) (rowi : List CellState),
      (g.map (sanitizeRow (expectedColsOf g)))[i]? = some rowi →
      rowi.length = expectedColsOf g := by
    intro i rowi hi
    rw [List.getElem?_map] at hi
    cases hgi : g[i]? with
    | none =>
      rw [hgi] at hi
      simp at hi
    | some gi =>
      rw [hgi] at hi
      simp only [Option.map_some', Option.some.injEq] at hi
      rw [← hi]
      exact sanitizeRow_length _ _
  refine ⟨?_, ?_, fun hin => ⟨?_, ?_⟩⟩
  · simp only [loadPattern]
    refine rect_mapIdx_of_rows _ _ _ ?_
    intro i rowi hi
    rw [List.length_mapIdx]
    exact hsan i rowi hi
  · simp only [loadPattern]
    rw [List.length_mapIdx, List.length_map]
  · simp only [setCellState]
    rw [if_neg hin]
    refine rect_mapIdx_of_rows _ _ _ ?_
    intro i rowi hi
    have hl := hsan i rowi hi
    split
    · exact hl
    · rw [List.length_mapIdx]
      exact hl
  · simp only [setCellState]
    rw [if_neg hin, List.length_mapIdx, List.length_map]

/-- Witness for the amended C5: an in-bounds `setCellState` on a ragged grid
returns a rectangular grid. -/
theorem mutation_outputs_rectangular_witness :
    Rectangular (setCellState [[0], [0, 0]] 0 0 none)
      (expectedColsOf [[0], [0, 0]]) :=
  ((mutation_outputs_rectangular [[0], [0, 0]] ⟨"dot", [(0, 0)], 1, 1⟩ 0 0
    0 0 none).2.2 (by decide)).1
